import Mathlib

/-!
Verification of the authenticated HTTP client layer of the K-12
Student Information System repository.

The repository contains three clients with token-refresh logic:

* `SISClient` in `src/sdk/python/school_sis_sdk/client.py`
* `VirtualUser` in `src/backend/tests/clients/python/load_test_client.py`
* `FrontendSimulator` in `src/backend/tests/clients/python/frontend_simulator.py`

Each client is embedded as a pure state-passing function.  The network
is modelled as an oracle `Srv : Nat -> SrvAns` giving the server's
answer to the n-th request issued by the client (requests are the only
effects; the counter is threaded through the state).  Recursion in the
Python source (a function calling itself, directly or mutually, on a
401 response) is modelled with an explicit fuel parameter: `fuelOut`
means the computation was still running after `fuel` nested calls, so
`(forall fuel, result = fuelOut)` means the source diverges.

Wall-clock times (response times, `time.time()` values interpolated
into the fabricated tokens of the load-test client) are modelled by the
request counter; their exact values are irrelevant to every claim.
File handles (upload/download) are modelled as opening successfully;
OS-level I/O failure is out of scope.
-/

namespace SIS

/-- JSON envelope of a server response as consumed by the clients:
the `success` flag plus the fields of the `data` object that the
clients extract (`accessToken`, `refreshToken`, `user`, `tenant`).
`none` / `false` model an absent key, so that extracting it raises
`KeyError` as in Python. -/
structure Body where
  success : Bool := true
  accessToken : Option String := none
  refreshToken : Option String := none
  hasUser : Bool := true
  hasTenant : Bool := true
deriving Repr, DecidableEq

/-- The server's answer to one HTTP request: an HTTP response with a
status and a parsed JSON body, a timeout, or another transport-level
failure. -/
inductive SrvAns where
  | http (status : Nat) (body : Body)
  | timeout
  | netfail
deriving Repr, DecidableEq

/-- Server oracle: the answer to the n-th request the client sends. -/
abbrev Srv := Nat → SrvAns

/-- A request actually sent over the network: the method, the
url/endpoint, and the value of the `Authorization` header it carried
(`none` when the header was absent). -/
structure Sent where
  method : String
  url : String
  auth : Option String
deriving Repr, DecidableEq

/-- Python exceptions that the clients raise or catch:
`SISError(code, status)` from the SDK's `models.py`, `KeyError`,
`NameError`, and a plain `Exception(msg)`. -/
inductive PyErr where
  | sis (code : String) (status : Option Nat)
  | key (k : String)
  | name (n : String)
  | exc (msg : String)
deriving Repr, DecidableEq

/-- Result of running an embedded operation: a normal return value, a
raised exception, or fuel exhaustion (the source is still recursing
after `fuel` nested calls). -/
inductive Outcome (α : Type) where
  | ok (a : α)
  | err (e : PyErr)
  | fuelOut
deriving Repr, DecidableEq

/-- Python truthiness of an optional string (`None` and `''` are
falsy). -/
def truthy : Option String → Bool
  | none => false
  | some s => !(s == "")

/-- The `Authorization` header value attached by the clients when the
access token is truthy (`if self.access_token: headers['Authorization']
= f'Bearer .. '`). -/
def bearerOf (tok : Option String) : Option String :=
  match tok with
  | none => none
  | some t => if t == "" then none else some ("Bearer " ++ t)

/-- `dict.update`: entries of `newer` override entries of `older`;
keys of `older` absent from `newer` are kept. -/
def updateHeaders (older newer : List (String × String)) : List (String × String) :=
  older.filter (fun p => !(newer.any (fun q => q.1 == p.1))) ++ newer

/-- `del d[k]` on an association list: `none` models the `KeyError`
raised when the key is absent. -/
def delKey (hs : List (String × String)) (k : String) : Option (List (String × String)) :=
  if hs.any (fun p => p.1 == k) then some (hs.filter (fun p => !(p.1 == k))) else none

/-! ## SDK client (`school_sis_sdk/client.py`) -/

/-- `SISConfig` from `models.py` (fields the client logic reads). -/
structure SISConfig where
  base_url : String
  api_key : Option String := none
  token : Option String := none
  tenant_slug : Option String := none
  timeout : Nat := 30
  retries : Nat := 3
deriving Repr, DecidableEq

/-- Mutable state of a `SISClient` plus the instrumentation needed to
state the claims: the two token fields, the index of the next server
answer, and the log of requests actually issued. -/
structure SDKState where
  token : Option String
  refresh_token : Option String
  ctr : Nat
  sent : List Sent
deriving Repr, DecidableEq

/-- `SISClient._get_auth_headers` (client.py lines 50-63): at most the
keys `Authorization`, `X-Tenant-Slug` and `X-API-Key`, each guarded by
a truthiness test. -/
def get_auth_headers (cfg : SISConfig) (tok : Option String) : List (String × String) :=
  (match tok with
   | some t => if t == "" then [] else [("Authorization", "Bearer " ++ t)]
   | none => []) ++
  (match cfg.tenant_slug with
   | some s => if s == "" then [] else [("X-Tenant-Slug", s)]
   | none => []) ++
  (match cfg.api_key with
   | some k => if k == "" then [] else [("X-API-Key", k)]
   | none => [])

/-- `response.raise_for_status()` followed by the `except HTTPError`
status-to-`SISError` mapping of `_make_request` (client.py lines
84-109): statuses below 400 return the parsed body, the rest raise. -/
def finishResponse (status : Nat) (body : Body) : Outcome Body :=
  if 400 ≤ status then
    if status == 401 then .err (.sis "AUTH_FAILED" (some 401))
    else if status == 403 then .err (.sis "FORBIDDEN" (some 403))
    else if status == 404 then .err (.sis "NOT_FOUND" (some 404))
    else if status == 429 then .err (.sis "RATE_LIMIT" (some 429))
    else if 500 ≤ status then .err (.sis "SERVER_ERROR" (some status))
    else .err (.sis "HTTP_ERROR" (some status))
  else .ok body

mutual

/-- `SISClient._make_request` (client.py lines 65-112).  On a 401 with
a truthy refresh token it calls `_refresh_access_token` (which itself
sends through `_make_request`: mutual recursion in the source,
represented by the fuel) and then replays the original request once
with the headers dict updated in place from the new token.  Transport
failures map to a `NETWORK_ERROR` `SISError`; an `SISError` raised by
the refresh propagates (the `except` clauses only catch the requests
library's exceptions). -/
def sdk_make_request (srv : Srv) (cfg : SISConfig) :
    Nat → String → String → SDKState → Outcome Body × SDKState
  | 0, _, _, st => (.fuelOut, st)
  | fuel+1, method, url, st =>
    let headers := get_auth_headers cfg st.token
    let ans := srv st.ctr
    let st1 : SDKState :=
      { st with ctr := st.ctr + 1,
                sent := st.sent ++ [⟨method, url, headers.lookup "Authorization"⟩] }
    match ans with
    | .timeout => (.err (.sis "NETWORK_ERROR" none), st1)
    | .netfail => (.err (.sis "NETWORK_ERROR" none), st1)
    | .http status body =>
      if status == 401 && truthy st1.refresh_token then
        match sdk_refresh_access_token srv cfg fuel st1 with
        | (.ok _, st2) =>
          let headers2 := updateHeaders headers (get_auth_headers cfg st2.token)
          let ans2 := srv st2.ctr
          let st3 : SDKState :=
            { st2 with ctr := st2.ctr + 1,
                       sent := st2.sent ++ [⟨method, url, headers2.lookup "Authorization"⟩] }
          match ans2 with
          | .timeout => (.err (.sis "NETWORK_ERROR" none), st3)
          | .netfail => (.err (.sis "NETWORK_ERROR" none), st3)
          | .http status2 body2 => (finishResponse status2 body2, st3)
        | (.err e, st2) => (.err e, st2)
        | (.fuelOut, st2) => (.fuelOut, st2)
      else (finishResponse status body, st1)

/-- `SISClient._refresh_access_token` (client.py lines 114-132): POSTs
`/auth/refresh` through `_make_request`, then assigns `self.token` and
`self.refresh_token` from the response data (each extraction can raise
`KeyError`, which is not caught); on `SISError` it clears both token
fields and re-raises. -/
def sdk_refresh_access_token (srv : Srv) (cfg : SISConfig) :
    Nat → SDKState → Outcome Body × SDKState
  | 0, st => (.fuelOut, st)
  | fuel+1, st =>
    if !truthy st.refresh_token then (.err (.sis "NO_REFRESH_TOKEN" none), st)
    else
      match sdk_make_request srv cfg fuel "POST" "/auth/refresh" st with
      | (.ok body, st1) =>
        match body.accessToken with
        | none => (.err (.key "accessToken"), st1)
        | some a =>
          let st2 : SDKState := { st1 with token := some a }
          match body.refreshToken with
          | none => (.err (.key "refreshToken"), st2)
          | some r => (.ok body, { st2 with refresh_token := some r })
      | (.err (.sis c s), st1) =>
        (.err (.sis c s), { st1 with token := none, refresh_token := none })
      | (.err e, st1) => (.err e, st1)
      | (.fuelOut, st1) => (.fuelOut, st1)

end

/-- `SISClient.login` (client.py lines 134-150): POSTs `/auth/login`
and assigns both token fields from the response data. -/
def sdk_login (srv : Srv) (cfg : SISConfig) :
    Nat → SDKState → Outcome Body × SDKState
  | 0, st => (.fuelOut, st)
  | fuel+1, st =>
    match sdk_make_request srv cfg fuel "POST" "/auth/login" st with
    | (.ok body, st1) =>
      match body.accessToken with
      | none => (.err (.key "accessToken"), st1)
      | some a =>
        let st2 : SDKState := { st1 with token := some a }
        match body.refreshToken with
        | none => (.err (.key "refreshToken"), st2)
        | some r => (.ok body, { st2 with refresh_token := some r })
    | (.err e, st1) => (.err e, st1)
    | (.fuelOut, st1) => (.fuelOut, st1)

/-- `SISClient.logout` (client.py lines 152-164): if a refresh token is
held, best-effort POST `/auth/logout` swallowing `SISError` only; then
clear both token fields.  A non-`SISError` exception (e.g. `KeyError`
from a nested refresh) is not caught and skips the clearing. -/
def sdk_logout (srv : Srv) (cfg : SISConfig) :
    Nat → SDKState → Outcome Unit × SDKState
  | 0, st => (.fuelOut, st)
  | fuel+1, st =>
    if truthy st.refresh_token then
      match sdk_make_request srv cfg fuel "POST" "/auth/logout" st with
      | (.ok _, st1) => (.ok (), { st1 with token := none, refresh_token := none })
      | (.err (.sis _ _), st1) => (.ok (), { st1 with token := none, refresh_token := none })
      | (.err e, st1) => (.err e, st1)
      | (.fuelOut, st1) => (.fuelOut, st1)
    else (.ok (), { st with token := none, refresh_token := none })

/-- `SISClient.set_token` (client.py lines 166-170): always assigns the
access token; assigns the refresh token only when the argument is
truthy. -/
def sdk_set_token (t : String) (rt : Option String) (st : SDKState) : SDKState :=
  let st1 : SDKState := { st with token := some t }
  if truthy rt then { st1 with refresh_token := rt } else st1

/-- `SISClient.upload_file` (client.py lines 209-221): builds the auth
headers, executes `del headers['Content-Type']`, and only then would
issue the request.  The file is modelled as opening successfully. -/
def sdk_upload_file (srv : Srv) (cfg : SISConfig) (fuel : Nat) (url : String)
    (st : SDKState) : Outcome Body × SDKState :=
  let headers := get_auth_headers cfg st.token
  match delKey headers "Content-Type" with
  | none => (.err (.key "Content-Type"), st)
  | some _ => sdk_make_request srv cfg fuel "POST" url st

/-- The `urllib3.util.retry.Retry` strategy installed on the session by
`SISClient.__init__` (client.py lines 26-36). -/
structure RetryStrategy where
  total : Nat
  status_forcelist : List Nat
  method_whitelist : List String
  backoff_factor : Nat
deriving Repr, DecidableEq

/-- The retry strategy built from the configuration in
`SISClient.__init__`: total count from `config.retries`, the listed
retryable statuses, and a method whitelist that includes the
non-idempotent methods. -/
def sdk_retry_strategy (cfg : SISConfig) : RetryStrategy :=
  { total := cfg.retries
  , status_forcelist := [429, 500, 502, 503, 504]
  , method_whitelist := ["HEAD", "GET", "PUT", "DELETE", "OPTIONS", "TRACE", "POST"]
  , backoff_factor := 1 }

/-! ## Load-test client (`load_test_client.py`, class `VirtualUser`) -/

/-- Result tuple of `VirtualUser._make_request` (the response time is
a wall-clock value and is omitted): `(success, error_type)`. -/
structure VUResult where
  success : Bool
  error_type : Option String
deriving Repr, DecidableEq

/-- Mutable state of a `VirtualUser` (the session fields the claims
are about), plus the request counter and the log of issued requests. -/
structure VUState where
  is_authenticated : Bool
  access_token : Option String
  refresh_token : Option String
  ctr : Nat
  sent : List Sent
deriving Repr, DecidableEq

/-- The access token fabricated by `VirtualUser._authenticate` /
`_refresh_token` (`f'token_.. '` with the user id and `int(time.time())`;
the clock is modelled by the request counter). -/
def fabTok (uid n : Nat) : String :=
  "token_" ++ toString uid ++ "_" ++ toString n

/-- The refresh token fabricated by `VirtualUser._authenticate`. -/
def fabRef (uid n : Nat) : String :=
  "refresh_" ++ toString uid ++ "_" ++ toString n

mutual

/-- `VirtualUser._make_request` (load_test_client.py lines 118-160).
On a 401 with a truthy refresh token it tries `_refresh_token`; if that
raises, it calls `_authenticate` (whose boolean result is ignored) and
in either case recursively re-issues the original request with no
attempt counter.  Transport failures return failure tuples instead of
raising; the surrounding `try` turns any other exception into a
`NETWORK_ERROR` tuple. -/
def vu_make_request (srv : Srv) (uid : Nat) :
    Nat → String → String → VUState → Outcome VUResult × VUState
  | 0, _, _, st => (.fuelOut, st)
  | fuel+1, method, endpoint, st =>
    let ans := srv st.ctr
    let st1 : VUState :=
      { st with ctr := st.ctr + 1,
                sent := st.sent ++ [⟨method, endpoint, bearerOf st.access_token⟩] }
    match ans with
    | .timeout => (.ok ⟨false, some "TIMEOUT"⟩, st1)
    | .netfail => (.ok ⟨false, some "NETWORK_ERROR"⟩, st1)
    | .http status _ =>
      if status == 401 && truthy st1.refresh_token then
        match vu_refresh_token srv uid fuel st1 with
        | (.ok _, st2) => vu_make_request srv uid fuel method endpoint st2
        | (.err _, st2) =>
          match vu_authenticate srv uid fuel st2 with
          | (.ok _, st3) => vu_make_request srv uid fuel method endpoint st3
          | (.err _, st3) => (.ok ⟨false, some "NETWORK_ERROR"⟩, st3)
          | (.fuelOut, st3) => (.fuelOut, st3)
        | (.fuelOut, st2) => (.fuelOut, st2)
      else if status < 400 then (.ok ⟨true, none⟩, st1)
      else (.ok ⟨false, some ("HTTP_" ++ toString status)⟩, st1)

/-- `VirtualUser._authenticate` (load_test_client.py lines 162-183):
POSTs `/auth/login` through `_make_request`; on a success tuple it sets
`is_authenticated` and fabricates both tokens locally (it does not
parse the response); on a failure tuple or any exception it returns
`False` and never raises. -/
def vu_authenticate (srv : Srv) (uid : Nat) :
    Nat → VUState → Outcome Bool × VUState
  | 0, st => (.fuelOut, st)
  | fuel+1, st =>
    match vu_make_request srv uid fuel "POST" "/auth/login" st with
    | (.ok r, st1) =>
      if r.success then
        (.ok true, { st1 with is_authenticated := true,
                              access_token := some (fabTok uid st1.ctr),
                              refresh_token := some (fabRef uid st1.ctr) })
      else (.ok false, st1)
    | (.err _, st1) => (.ok false, st1)
    | (.fuelOut, st1) => (.fuelOut, st1)

/-- `VirtualUser._refresh_token` (load_test_client.py lines 185-200):
POSTs `/auth/refresh` through `_make_request`; on a success tuple it
fabricates a new access token — line 193 assigns `self.access_token`
only, leaving `self.refresh_token` untouched; otherwise it raises
(`raise Exception(..)`, re-raised by the `except` clause). -/
def vu_refresh_token (srv : Srv) (uid : Nat) :
    Nat → VUState → Outcome Bool × VUState
  | 0, st => (.fuelOut, st)
  | fuel+1, st =>
    match vu_make_request srv uid fuel "POST" "/auth/refresh" st with
    | (.ok r, st1) =>
      if r.success then
        (.ok true, { st1 with access_token := some (fabTok uid st1.ctr) })
      else (.err (.exc "Token refresh failed"), st1)
    | (.err e, st1) => (.err e, st1)
    | (.fuelOut, st1) => (.fuelOut, st1)

end

/-- Names bound at module level of `load_test_client.py` (imports,
module constants and the top-level classes/functions).  `start_time`
is not among them. -/
def load_test_client_globals : List String :=
  ["asyncio", "aiohttp", "json", "time", "random", "statistics", "logging",
   "datetime", "timedelta", "Dict", "List", "Optional", "Any", "Tuple",
   "dataclass", "field", "ThreadPoolExecutor", "argparse", "logger",
   "LoadTestConfig", "LoadTestResult", "VirtualUser", "LoadTestRunner", "main"]

/-- Names assigned as bare locals somewhere in the body of
`VirtualUser.simulate_user_session` (load_test_client.py lines
345-403), which is what Python's compiler uses to classify a name as
local.  `start_time` is never assigned as a bare name there (line 347
assigns the attribute `self.start_time`), so it is not among them. -/
def vu_simulate_session_assigned_locals : List String :=
  ["self", "duration", "end_time", "session_results", "scenario",
   "scenario_results", "response_time", "success", "error_type", "e"]

/-- `VirtualUser.simulate_user_session` (load_test_client.py lines
345-348).  Line 347 assigns the attribute `self.start_time`; line 348
evaluates `end_time = start_time + duration`.  Since `start_time` is
not a local of the function, Python compiles the load as a global
lookup, which fails with `NameError` before `_authenticate` or any
request is reached.  The rest of the body is unreachable and embedded
as an `ok` placeholder on the (dead) branch where the name resolves. -/
def vu_simulate_user_session (duration : Nat) (st : VUState) : Outcome Unit × VUState :=
  if vu_simulate_session_assigned_locals.contains "start_time" ||
     load_test_client_globals.contains "start_time" then
    (.ok (), st)
  else (.err (.name "start_time"), st)

/-! ## Frontend simulator (`frontend_simulator.py`, class `FrontendSimulator`) -/

/-- The dict returned by `FrontendSimulator._make_request`: the HTTP
status and the parsed body (the response time is omitted). -/
structure FSResp where
  status : Nat
  data : Body
deriving Repr, DecidableEq

/-- The `SessionData` fields of the simulator that the claims are
about (`user`/`tenant` are tracked as presence flags), plus the
request counter and the log of issued requests. -/
structure FSState where
  is_authenticated : Bool
  access_token : Option String
  refresh_token : Option String
  hasUser : Bool
  hasTenant : Bool
  ctr : Nat
  sent : List Sent
deriving Repr, DecidableEq

/-- Simulator configuration fields read by the embedded operations. -/
structure FSConfig where
  max_retries : Nat := 3
  tenant_slug : Option String := some "springfield"
deriving Repr, DecidableEq

mutual

/-- `FrontendSimulator._make_request` (frontend_simulator.py lines
94-147).  Carries a `retry_count`, but `_refresh_token` and
`_authenticate` call `_make_request` with `retry_count` starting again
at 0, so the bound only applies along one endpoint's own chain.  On a
401 with a truthy refresh token and `retry_count < max_retries`: try
`_refresh_token`, on failure `_authenticate` (which may raise), then
recurse with `retry_count + 1`.  Error statuses are returned as data;
transport failures raise. -/
def fs_make_request (srv : Srv) (cfg : FSConfig) :
    Nat → String → String → Nat → FSState → Outcome FSResp × FSState
  | 0, _, _, _, st => (.fuelOut, st)
  | fuel+1, method, endpoint, rc, st =>
    let ans := srv st.ctr
    let st1 : FSState :=
      { st with ctr := st.ctr + 1,
                sent := st.sent ++ [⟨method, endpoint, bearerOf st.access_token⟩] }
    match ans with
    | .timeout => (.err (.exc "TimeoutError"), st1)
    | .netfail => (.err (.exc "ClientError"), st1)
    | .http status body =>
      if status == 401 && truthy st1.refresh_token && rc < cfg.max_retries then
        match fs_refresh_token srv cfg fuel st1 with
        | (.ok _, st2) => fs_make_request srv cfg fuel method endpoint (rc + 1) st2
        | (.err _, st2) =>
          match fs_authenticate srv cfg fuel st2 with
          | (.ok _, st3) => fs_make_request srv cfg fuel method endpoint (rc + 1) st3
          | (.err e, st3) => (.err e, st3)
          | (.fuelOut, st3) => (.fuelOut, st3)
        | (.fuelOut, st2) => (.fuelOut, st2)
      else (.ok ⟨status, body⟩, st1)

/-- `FrontendSimulator._authenticate` (frontend_simulator.py lines
149-177): POSTs `/auth/login`; if the body's `success` flag is set, it
assigns (in source order) `is_authenticated = True`, then
`access_token`, `refresh_token`, `user`, `tenant` from the data dict —
each extraction can raise `KeyError`, leaving the earlier assignments
in place; otherwise it raises.  All exceptions are re-raised. -/
def fs_authenticate (srv : Srv) (cfg : FSConfig) :
    Nat → FSState → Outcome Bool × FSState
  | 0, st => (.fuelOut, st)
  | fuel+1, st =>
    match fs_make_request srv cfg fuel "POST" "/auth/login" 0 st with
    | (.ok resp, st1) =>
      if resp.data.success then
        let stA : FSState := { st1 with is_authenticated := true }
        match resp.data.accessToken with
        | none => (.err (.key "accessToken"), stA)
        | some a =>
          let stB : FSState := { stA with access_token := some a }
          match resp.data.refreshToken with
          | none => (.err (.key "refreshToken"), stB)
          | some r =>
            let stC : FSState := { stB with refresh_token := some r }
            if resp.data.hasUser then
              let stD : FSState := { stC with hasUser := true }
              if resp.data.hasTenant then (.ok true, { stD with hasTenant := true })
              else (.err (.key "tenant"), stD)
            else (.err (.key "user"), stC)
      else (.err (.exc "Authentication failed"), st1)
    | (.err e, st1) => (.err e, st1)
    | (.fuelOut, st1) => (.fuelOut, st1)

/-- `FrontendSimulator._refresh_token` (frontend_simulator.py lines
179-195): raises if no refresh token is held; POSTs `/auth/refresh`;
on a `success` body assigns `access_token` then `refresh_token` from
the data dict (each extraction can raise `KeyError`); otherwise
raises. -/
def fs_refresh_token (srv : Srv) (cfg : FSConfig) :
    Nat → FSState → Outcome Bool × FSState
  | 0, st => (.fuelOut, st)
  | fuel+1, st =>
    if !truthy st.refresh_token then (.err (.exc "No refresh token available"), st)
    else
      match fs_make_request srv cfg fuel "POST" "/auth/refresh" 0 st with
      | (.ok resp, st1) =>
        if resp.data.success then
          match resp.data.accessToken with
          | none => (.err (.key "accessToken"), st1)
          | some a =>
            let stB : FSState := { st1 with access_token := some a }
            match resp.data.refreshToken with
            | none => (.err (.key "refreshToken"), stB)
            | some r => (.ok true, { stB with refresh_token := some r })
        else (.err (.exc "Token refresh failed"), st1)
      | (.err e, st1) => (.err e, st1)
      | (.fuelOut, st1) => (.fuelOut, st1)

end

/-- `FrontendSimulator.logout` (frontend_simulator.py lines 471-492):
POSTs `/auth/logout`; if the request returns (any status), all session
fields are cleared; if it raises, the `except` clause clears only
`is_authenticated`, leaving both token fields (and user/tenant) with
their previous values.  Logout never re-raises. -/
def fs_logout (srv : Srv) (cfg : FSConfig) :
    Nat → FSState → Outcome Unit × FSState
  | 0, st => (.fuelOut, st)
  | fuel+1, st =>
    match fs_make_request srv cfg fuel "POST" "/auth/logout" 0 st with
    | (.ok _, st1) =>
      (.ok (), { st1 with is_authenticated := false, access_token := none,
                          refresh_token := none, hasUser := false, hasTenant := false })
    | (.err _, st1) => (.ok (), { st1 with is_authenticated := false })
    | (.fuelOut, st1) => (.fuelOut, st1)

/-! ## Concrete fixtures used by the theorems -/

/-- A default SDK configuration (defaults from `SISConfig` in
`models.py`; `retries` defaults to 3). -/
def cfg0 : SISConfig :=
  { base_url := "http://localhost:3000/api", tenant_slug := some "springfield" }

/-- An authenticated SDK client state holding both tokens. -/
def sdkSt0 : SDKState :=
  { token := some "t0", refresh_token := some "r0", ctr := 0, sent := [] }

/-- An authenticated load-test virtual-user state holding both tokens. -/
def vuSt0 : VUState :=
  { is_authenticated := true, access_token := some "a0",
    refresh_token := some "r0", ctr := 0, sent := [] }

/-- Default simulator configuration (`max_retries` defaults to 3). -/
def fsCfg0 : FSConfig := {}

/-- The simulator's freshly-constructed session (`SessionData()`). -/
def fsSt0 : FSState :=
  { is_authenticated := false, access_token := none, refresh_token := none,
    hasUser := false, hasTenant := false, ctr := 0, sent := [] }

/-- An authenticated simulator session holding both tokens. -/
def fsStAuth : FSState :=
  { is_authenticated := true, access_token := some "a0",
    refresh_token := some "r0", hasUser := true, hasTenant := true,
    ctr := 0, sent := [] }

/-- A server that answers every request — including refresh and login
requests — with HTTP 401. -/
def srv401 : Srv := fun _ => .http 401 {}

/-! ## Divergence of the 401-recovery recursion (claim C1) -/

/-- Against the always-401 server, `SISClient._make_request` and
`_refresh_access_token` never terminate while a refresh token is held:
each 401 triggers a refresh, whose own request receives 401 and
triggers a refresh again, with no attempt counter. -/
theorem sdk_always401_diverges (fuel : Nat) :
    (∀ st m u, truthy st.refresh_token = true →
        (sdk_make_request srv401 cfg0 fuel m u st).1 = .fuelOut) ∧
    (∀ st, truthy st.refresh_token = true →
        (sdk_refresh_access_token srv401 cfg0 fuel st).1 = .fuelOut) := by
  induction fuel with
  | zero => exact ⟨fun _ _ _ _ => rfl, fun _ _ => rfl⟩
  | succ f ih =>
    constructor
    · intro st m u h
      have h1 : truthy (SDKState.refresh_token
          { st with ctr := st.ctr + 1,
                    sent := st.sent ++ [⟨m, u, (get_auth_headers cfg0 st.token).lookup "Authorization"⟩] }) = true := h
      simp only [sdk_make_request, srv401]
      rw [show ((401 : Nat) == 401 && truthy st.refresh_token) = true by simp [h]]
      simp only [if_true]
      rcases hq : sdk_refresh_access_token srv401 cfg0 f
          { st with ctr := st.ctr + 1,
                    sent := st.sent ++ [⟨m, u, (get_auth_headers cfg0 st.token).lookup "Authorization"⟩] } with ⟨o, s⟩
      have := ih.2 _ h1
      rw [hq] at this
      simp at this
      subst this
      simp [hq]
    · intro st h
      simp only [sdk_refresh_access_token, h]
      rcases hq : sdk_make_request srv401 cfg0 f "POST" "/auth/refresh" st with ⟨o, s⟩
      have := ih.1 st "POST" "/auth/refresh" h
      rw [hq] at this
      simp at this
      subst this
      simp [hq]

/-- Against the always-401 server, `VirtualUser._make_request` and
`_refresh_token` never terminate while a refresh token is held. -/
theorem vu_always401_diverges (uid : Nat) (fuel : Nat) :
    (∀ st m e, truthy st.refresh_token = true →
        (vu_make_request srv401 uid fuel m e st).1 = .fuelOut) ∧
    (∀ st, truthy st.refresh_token = true →
        (vu_refresh_token srv401 uid fuel st).1 = .fuelOut) := by
  induction fuel with
  | zero => exact ⟨fun _ _ _ _ => rfl, fun _ _ => rfl⟩
  | succ f ih =>
    constructor
    · intro st m e h
      have h1 : truthy (VUState.refresh_token
          { st with ctr := st.ctr + 1,
                    sent := st.sent ++ [⟨m, e, bearerOf st.access_token⟩] }) = true := h
      simp only [vu_make_request, srv401]
      rw [show ((401 : Nat) == 401 && truthy st.refresh_token) = true by simp [h]]
      simp only [if_true]
      rcases hq : vu_refresh_token srv401 uid f
          { st with ctr := st.ctr + 1,
                    sent := st.sent ++ [⟨m, e, bearerOf st.access_token⟩] } with ⟨o, s⟩
      have := ih.2 _ h1
      rw [hq] at this
      simp at this
      subst this
      simp [hq]
    · intro st h
      simp only [vu_refresh_token]
      rcases hq : vu_make_request srv401 uid f "POST" "/auth/refresh" st with ⟨o, s⟩
      have := ih.1 st "POST" "/auth/refresh" h
      rw [hq] at this
      simp at this
      subst this
      simp [hq]

/-- C1: the claim asserts that the 401-recovery process is bounded (at
most one refresh and one re-authentication attempt per call) and that
the client never loops or recurses indefinitely even if the server
answers every request, including the refresh request, with 401.  The
code violates this: against the always-401 server, both
`SISClient._make_request` and `VirtualUser._make_request` recurse
mutually with their refresh helpers without any attempt counter, so
for every recursion depth the computation is still running — the
recovery process never terminates and the original 401 is never
surfaced. -/
theorem c1_persistent_401_recursion_diverges (fuel : Nat) :
    (sdk_make_request srv401 cfg0 fuel "GET" "/students" sdkSt0).1 = .fuelOut ∧
    (vu_make_request srv401 7 fuel "GET" "/students" vuSt0).1 = .fuelOut :=
  ⟨(sdk_always401_diverges fuel).1 sdkSt0 "GET" "/students" (by decide),
   (vu_always401_diverges 7 fuel).1 vuSt0 "GET" "/students" (by decide)⟩

/-- A server whose logout (and every other) request fails at the
transport level. -/
def srvNetfail : Srv := fun _ => .netfail

/-- C4: the claim asserts that for every server response to the logout
request — success, error status, or network failure — logout leaves
the session with `isAuthenticated` false and both token fields
cleared, and never raises.  The code violates this: when the logout
request of `FrontendSimulator.logout` raises a network error, the
`except` clause clears only `is_authenticated` and both token fields
keep their previous values. -/
theorem c4_logout_network_failure_keeps_tokens :
    (fs_logout srvNetfail fsCfg0 5 fsStAuth).1 = .ok () ∧
    (fs_logout srvNetfail fsCfg0 5 fsStAuth).2.is_authenticated = false ∧
    (fs_logout srvNetfail fsCfg0 5 fsStAuth).2.access_token = some "a0" ∧
    (fs_logout srvNetfail fsCfg0 5 fsStAuth).2.refresh_token = some "r0" := by
  decide

/-- C5 counterexample: the claim asserts that automatic retries are
applied only to idempotent methods (GET) or on explicit opt-in.  The
retry strategy installed unconditionally by `SISClient.__init__`
whitelists POST, PUT and DELETE for retry on the retryable statuses
(429/500/502/503/504) with a default attempt count of 3. -/
theorem c5_counterexample :
    (sdk_retry_strategy cfg0).method_whitelist.contains "POST" = true ∧
    (sdk_retry_strategy cfg0).method_whitelist.contains "PUT" = true ∧
    (sdk_retry_strategy cfg0).method_whitelist.contains "DELETE" = true ∧
    (sdk_retry_strategy cfg0).status_forcelist.contains 500 = true ∧
    (sdk_retry_strategy cfg0).total = 3 := by
  decide

/-- C5 amended: the SDK client installs a session-wide retry policy
that retries the statuses 429, 500, 502, 503, 504 for all of HEAD,
GET, PUT, DELETE, OPTIONS, TRACE and POST alike; only the total
attempt count is taken from the caller's configuration
(`config.retries`), so the policy is hardcoded for non-idempotent
methods rather than restricted to GET or to explicit opt-in. -/
theorem c5_amended_retry_policy (cfg : SISConfig) :
    (sdk_retry_strategy cfg).total = cfg.retries ∧
    (sdk_retry_strategy cfg).method_whitelist.contains "POST" = true ∧
    (sdk_retry_strategy cfg).method_whitelist.contains "PUT" = true ∧
    (sdk_retry_strategy cfg).method_whitelist.contains "DELETE" = true ∧
    (sdk_retry_strategy cfg).method_whitelist.contains "GET" = true ∧
    (sdk_retry_strategy cfg).status_forcelist.all (fun s => 400 ≤ s) = true ∧
    (sdk_retry_strategy cfg).backoff_factor = 1 :=
  ⟨rfl, rfl, rfl, rfl, rfl, rfl, rfl⟩

/-- The keys of `_get_auth_headers` are always among `Authorization`,
`X-Tenant-Slug` and `X-API-Key`. -/
theorem get_auth_headers_keys (cfg : SISConfig) (tok : Option String) :
    ∀ p ∈ get_auth_headers cfg tok,
      p.1 = "Authorization" ∨ p.1 = "X-Tenant-Slug" ∨ p.1 = "X-API-Key" := by
  obtain ⟨bu, ak, tk, ts, tmo, rt⟩ := cfg
  intro p hp
  obtain ⟨a, b⟩ := p
  unfold get_auth_headers at hp
  rcases tok with _ | t <;> rcases ts with _ | s <;>
    rcases ak with _ | k <;> simp_all <;> tauto

/-- An association list none of whose keys matches `k` has no entry
for `k`. -/
theorem lookup_none_of_no_key {β : Type} (l : List (String × β)) (k : String)
    (h : ∀ p ∈ l, ¬p.1 = k) : l.lookup k = none := by
  induction l with
  | nil => rfl
  | cons p rest ih =>
    obtain ⟨a, b⟩ := p
    have ha : ¬a = k := h ⟨a, b⟩ (by simp)
    have hk : (k == a) = false := by
      simp only [beq_eq_false_iff_ne, ne_eq]
      exact fun hh => ha hh.symm
    simp only [List.lookup, hk]
    exact ih (fun q hq => h q (by simp [hq]))

/-- C9: for every configuration and client state,
`SISClient._get_auth_headers` never produces a `Content-Type` key (its
keys are among `Authorization`, `X-Tenant-Slug`, `X-API-Key`), so
`upload_file`'s `del headers['Content-Type']` raises `KeyError` before
any request is issued and leaves the state untouched. -/
theorem c9_upload_file_always_keyerror (srv : Srv) (cfg : SISConfig) (fuel : Nat)
    (url : String) (st : SDKState) :
    (get_auth_headers cfg st.token).all
      (fun p => p.1 == "Authorization" || p.1 == "X-Tenant-Slug" || p.1 == "X-API-Key") = true ∧
    (get_auth_headers cfg st.token).lookup "Content-Type" = none ∧
    sdk_upload_file srv cfg fuel url st = (.err (.key "Content-Type"), st) := by
  have hkeys := get_auth_headers_keys cfg st.token
  have hnok : ∀ p ∈ get_auth_headers cfg st.token, ¬p.1 = "Content-Type" := by
    intro p hp
    rcases hkeys p hp with h | h | h <;> rw [h] <;> decide
  have hany : (get_auth_headers cfg st.token).any (fun p => p.1 == "Content-Type") = false := by
    rw [List.any_eq_false]
    intro p hp
    simpa using hnok p hp
  refine ⟨?_, lookup_none_of_no_key _ _ hnok, ?_⟩
  · rw [List.all_eq_true]
    intro p hp
    rcases hkeys p hp with h | h | h <;> rw [h] <;> decide
  · unfold sdk_upload_file delKey
    simp only [hany]
    simp

/-- C10: for every duration and every virtual-user state,
`VirtualUser.simulate_user_session` raises `NameError` for
`start_time` before issuing any request: the name is neither assigned
as a local of the function (line 347 assigns the attribute
`self.start_time`) nor bound at module level, so line 348's
`end_time = start_time + duration` fails, leaving the state
untouched. -/
theorem c10_simulate_user_session_nameerror (duration : Nat) (st : VUState) :
    vu_simulate_user_session duration st = (.err (.name "start_time"), st) ∧
    vu_simulate_session_assigned_locals.contains "start_time" = false ∧
    load_test_client_globals.contains "start_time" = false := by
  refine ⟨?_, by decide, by decide⟩
  unfold vu_simulate_user_session
  rw [show (vu_simulate_session_assigned_locals.contains "start_time" ||
      load_test_client_globals.contains "start_time") = false by decide]
  simp

/-- A server that answers the first request with 401 and all later
requests (in particular the refresh) with 500. -/
def srvRefreshFails : Srv := fun i => if i == 0 then .http 401 {} else .http 500 {}

/-- C2 counterexample: the claim asserts that when a request receives
401 and the refresh attempt fails, the client falls back to exactly
one full login and, if that succeeds, retries the original request.
The SDK client does neither: when the refresh request fails it clears
both tokens and surfaces the refresh failure; the request log shows no
`/auth/login` request and no replay of the original request. -/
theorem c2_counterexample :
    (sdk_make_request srvRefreshFails cfg0 10 "GET" "/students" sdkSt0).1 =
      .err (.sis "SERVER_ERROR" (some 500)) ∧
    ((sdk_make_request srvRefreshFails cfg0 10 "GET" "/students" sdkSt0).2.sent.map Sent.url) =
      ["/students", "/auth/refresh"] ∧
    (sdk_make_request srvRefreshFails cfg0 10 "GET" "/students" sdkSt0).2.token = none ∧
    (sdk_make_request srvRefreshFails cfg0 10 "GET" "/students" sdkSt0).2.refresh_token = none := by
  decide

/-! ## Token-pair atomicity of the refresh operations (claim C6) -/

/-- `raise_for_status` returns the body unchanged on success. -/
theorem finishResponse_ok {s : Nat} {b b' : Body} (h : finishResponse s b = .ok b') :
    b' = b := by
  unfold finishResponse at h
  split_ifs at h <;> simp_all

/-- Every body returned successfully by `SISClient._make_request` is
the body of some server response (requests are the only source of
data). -/
theorem sdk_make_request_ok_src (srv : Srv) (cfg : SISConfig) (f : Nat) (m u : String)
    (st : SDKState) (b : Body) (st' : SDKState)
    (h : sdk_make_request srv cfg f m u st = (.ok b, st')) :
    ∃ i s, srv i = .http s b := by
  match f with
  | 0 => simp [sdk_make_request] at h
  | f+1 =>
    simp only [sdk_make_request] at h
    split at h
    · simp at h
    · simp at h
    · rename_i status body hsrv
      split at h
      · split at h
        · split at h
          · simp at h
          · simp at h
          · rename_i st2 _ status2 body2 hsrv2
            have hb : finishResponse status2 body2 = .ok b := by
              have := congrArg Prod.fst h
              simpa using this
            exact ⟨_, status2, by rw [hsrv2, finishResponse_ok hb]⟩
        · simp at h
        · simp at h
      · have hb : finishResponse status body = .ok b := by
          have := congrArg Prod.fst h
          simpa using this
        exact ⟨_, status, by rw [hsrv, finishResponse_ok hb]⟩

/-- A server that answers every request with a plain 200 body (no
token fields). -/
def srvOk200 : Srv := fun _ => .http 200 {}

/-- C6 counterexample: the claim asserts that no operation updates one
token field while leaving the other holding its previous value.  A
successful `VirtualUser._refresh_token` (load_test_client.py line 193)
fabricates a new access token but leaves `refresh_token` untouched:
after the run the access token has changed while the refresh token
still holds its previous value. -/
theorem c6_counterexample :
    (vu_refresh_token srvOk200 1 5 vuSt0).1 = .ok true ∧
    (vu_refresh_token srvOk200 1 5 vuSt0).2.access_token = some "token_1_1" ∧
    ¬(vu_refresh_token srvOk200 1 5 vuSt0).2.access_token = vuSt0.access_token ∧
    (vu_refresh_token srvOk200 1 5 vuSt0).2.refresh_token = vuSt0.refresh_token := by
  decide

/-- C6 amended: `SISClient._refresh_access_token` does treat the token
fields as a pair on its `SISError` and success outcomes: when it raises
an `SISError` it has either cleared both fields or left both untouched,
and when it succeeds both fields come from the same refresh response;
by contrast, `SISClient.set_token` without a refresh argument and
`VirtualUser._refresh_token` (see the counterexample) update only the
access token. -/
theorem c6_amended_refresh_pairing (srv : Srv) (cfg : SISConfig) (f : Nat)
    (st : SDKState) :
    (∀ c s st', sdk_refresh_access_token srv cfg f st = (.err (.sis c s), st') →
        (st'.token = none ∧ st'.refresh_token = none) ∨ st' = st) ∧
    (∀ b st', sdk_refresh_access_token srv cfg f st = (.ok b, st') →
        (∃ i s, srv i = .http s b) ∧
        st'.token = b.accessToken ∧ st'.refresh_token = b.refreshToken) ∧
    (∀ t, (sdk_set_token t none st).token = some t ∧
          (sdk_set_token t none st).refresh_token = st.refresh_token) := by
  refine ⟨?_, ?_, ?_⟩
  · intro c s st' h
    match f with
    | 0 => simp [sdk_refresh_access_token] at h
    | f+1 =>
      simp only [sdk_refresh_access_token] at h
      by_cases hrt : (!truthy st.refresh_token) = true
      · rw [if_pos hrt] at h
        right
        simpa using (congrArg Prod.snd h).symm
      · rw [if_neg hrt] at h
        rcases hmk : sdk_make_request srv cfg f "POST" "/auth/refresh" st with ⟨o, st1⟩
        rw [hmk] at h
        rcases o with body | e | _
        · dsimp only at h
          rcases hA : body.accessToken with _ | a
          · rw [hA] at h
            simp at h
          · rw [hA] at h
            dsimp only at h
            rcases hR : body.refreshToken with _ | r
            · rw [hR] at h
              simp at h
            · rw [hR] at h
              simp at h
        · rcases e with ⟨c', s'⟩ | k | n | msg
          · dsimp only at h
            left
            have h2 := congrArg Prod.snd h
            simp at h2
            rw [← h2]
            exact ⟨rfl, rfl⟩
          · simp at h
          · simp at h
          · simp at h
        · simp at h
  · intro b st' h
    match f with
    | 0 => simp [sdk_refresh_access_token] at h
    | f+1 =>
      simp only [sdk_refresh_access_token] at h
      by_cases hrt : (!truthy st.refresh_token) = true
      · rw [if_pos hrt] at h
        simp at h
      · rw [if_neg hrt] at h
        rcases hmk : sdk_make_request srv cfg f "POST" "/auth/refresh" st with ⟨o, st1⟩
        rw [hmk] at h
        rcases o with body | e | _
        · dsimp only at h
          obtain ⟨i, sS, hsrv⟩ :=
            sdk_make_request_ok_src srv cfg f "POST" "/auth/refresh" st body st1 hmk
          rcases hA : body.accessToken with _ | a
          · rw [hA] at h
            simp at h
          · rw [hA] at h
            dsimp only at h
            rcases hR : body.refreshToken with _ | r
            · rw [hR] at h
              simp at h
            · rw [hR] at h
              dsimp only at h
              have hb : body = b := by simpa using congrArg Prod.fst h
              have hst := congrArg Prod.snd h
              simp at hst
              refine ⟨⟨i, sS, by rw [hsrv, hb]⟩, ?_, ?_⟩
              · rw [← hst, ← hb, hA]
              · rw [← hst, ← hb, hR]
        · rcases e with ⟨c', s'⟩ | k | n | msg <;> simp at h
        · simp at h
  · intro t
    unfold sdk_set_token
    simp [truthy]

/-- A refresh response body carrying a fresh token pair. -/
def bGoodTok : Body := { accessToken := some "t1", refreshToken := some "r1" }

/-- A server that answers every request with 200 and a fresh token
pair. -/
def srvGoodTok : Srv := fun _ => .http 200 bGoodTok

/-- The SDK state after a successful refresh against `srvGoodTok`
starting from `sdkSt0`. -/
def sdkStAfterRefresh : SDKState :=
  { token := some "t1", refresh_token := some "r1", ctr := 1,
    sent := [⟨"POST", "/auth/refresh", some "Bearer t0"⟩] }

/-- Witness for the C6 amended theorem: a concrete successful refresh
run whose final token pair is exactly the pair of the (unique) refresh
response. -/
theorem c6_amended_refresh_pairing_witness :
    (∃ i s, srvGoodTok i = .http s bGoodTok) ∧
    sdkStAfterRefresh.token = bGoodTok.accessToken ∧
    sdkStAfterRefresh.refresh_token = bGoodTok.refreshToken :=
  (c6_amended_refresh_pairing srvGoodTok cfg0 5 sdkSt0).2.1 bGoodTok sdkStAfterRefresh
    (by decide)

/-! ## Behaviour when the refresh attempt fails (claim C2) -/

/-- Every failing status maps to an `SISError` carrying that status. -/
theorem finishResponse_err (s : Nat) (b : Body) (h : 400 ≤ s) :
    ∃ c, finishResponse s b = .err (.sis c (some s)) := by
  unfold finishResponse
  rw [if_pos h]
  split_ifs with h1 h2 h3 h4 h5
  · exact ⟨"AUTH_FAILED", by simp only [beq_iff_eq] at h1; rw [h1]⟩
  · exact ⟨"FORBIDDEN", by simp only [beq_iff_eq] at h2; rw [h2]⟩
  · exact ⟨"NOT_FOUND", by simp only [beq_iff_eq] at h3; rw [h3]⟩
  · exact ⟨"RATE_LIMIT", by simp only [beq_iff_eq] at h4; rw [h4]⟩
  · exact ⟨"SERVER_ERROR", rfl⟩
  · exact ⟨"HTTP_ERROR", rfl⟩

/-- A server for the load-test conjunct of the amended C2: 401 to the
original request, failure (500) to the refresh and to the login
request, 200 to the retry of the original request. -/
def srvVuRelogin : Srv := fun i =>
  if i == 0 then .http 401 {} else if i == 3 then .http 200 {} else .http 500 {}

/-- C2 amended: when a request receives 401 and the refresh attempt
fails, the SDK client performs no login fallback — it clears both
tokens and surfaces the refresh failure to the caller, its request log
showing only the original request and the failed refresh (no
`/auth/login`, no replay).  The load-test client does fall back to one
login, but then retries the original request even though that login
failed (so the failure of both recovery paths is not surfaced). -/
theorem c2_amended_no_login_fallback (srv : Srv) (f : Nat) (b0 b1 : Body) (s1 : Nat)
    (h0 : srv 0 = .http 401 b0) (h1 : srv 1 = .http s1 b1)
    (hs : 400 ≤ s1) (hne : ¬s1 = 401) (m u : String) :
    (∃ c, sdk_make_request srv cfg0 (f+3) m u sdkSt0 =
      (.err (.sis c (some s1)),
       { token := none, refresh_token := none, ctr := 2,
         sent := [⟨m, u, some "Bearer t0"⟩,
                  ⟨"POST", "/auth/refresh", some "Bearer t0"⟩] })) ∧
    (vu_make_request srvVuRelogin 3 10 "GET" "/students" vuSt0).1 = .ok ⟨true, none⟩ ∧
    ((vu_make_request srvVuRelogin 3 10 "GET" "/students" vuSt0).2.sent.map Sent.url =
      ["/students", "/auth/refresh", "/auth/login", "/students"]) := by
  obtain ⟨c, hc⟩ := finishResponse_err s1 b1 hs
  have hbne : (s1 == 401) = false := by simp [hne]
  have hA : sdk_make_request srv cfg0 (f+1) "POST" "/auth/refresh"
      { token := some "t0", refresh_token := some "r0", ctr := 1,
        sent := [⟨m, u, some "Bearer t0"⟩] } =
      (.err (.sis c (some s1)),
       { token := some "t0", refresh_token := some "r0", ctr := 2,
         sent := [⟨m, u, some "Bearer t0"⟩,
                  ⟨"POST", "/auth/refresh", some "Bearer t0"⟩] }) := by
    simp only [sdk_make_request]
    rw [h1]
    simp [hbne, hc, get_auth_headers, cfg0, truthy]
  have hB : sdk_refresh_access_token srv cfg0 (f+2)
      { token := some "t0", refresh_token := some "r0", ctr := 1,
        sent := [⟨m, u, some "Bearer t0"⟩] } =
      (.err (.sis c (some s1)),
       { token := none, refresh_token := none, ctr := 2,
         sent := [⟨m, u, some "Bearer t0"⟩,
                  ⟨"POST", "/auth/refresh", some "Bearer t0"⟩] }) := by
    simp only [sdk_refresh_access_token]
    rw [hA]
    simp [truthy]
  refine ⟨⟨c, ?_⟩, by decide, by decide⟩
  simp only [sdkSt0, sdk_make_request]
  rw [h0]
  rw [(by decide : get_auth_headers cfg0 (some "t0") =
        [("Authorization", "Bearer t0"), ("X-Tenant-Slug", "springfield")])]
  norm_num [List.lookup, truthy]
  rw [hB]
  rfl

/-- Witness for the amended C2 at a concrete server (401 to the
original request, 500 to the refresh): the SDK client surfaces the
failure with no login and no replay; the load-test client against
`srvVuRelogin` falls back to one failed login and retries anyway. -/
theorem c2_amended_no_login_fallback_witness :
    (∃ c, sdk_make_request srvRefreshFails cfg0 (0+3) "GET" "/students" sdkSt0 =
      (.err (.sis c (some 500)),
       { token := none, refresh_token := none, ctr := 2,
         sent := [⟨"GET", "/students", some "Bearer t0"⟩,
                  ⟨"POST", "/auth/refresh", some "Bearer t0"⟩] })) ∧
    (vu_make_request srvVuRelogin 3 10 "GET" "/students" vuSt0).1 = .ok ⟨true, none⟩ ∧
    ((vu_make_request srvVuRelogin 3 10 "GET" "/students" vuSt0).2.sent.map Sent.url =
      ["/students", "/auth/refresh", "/auth/login", "/students"]) :=
  c2_amended_no_login_fallback srvRefreshFails 0 {} {} 500 (by decide) (by decide)
    (by decide) (by decide) "GET" "/students"

/-! ## Refresh-then-retry behaviour on 401 (claim C3) -/

/-- A refresh response body carrying tokens `a1`/`r1`. -/
def bRef1 : Body := { accessToken := some "a1", refreshToken := some "r1" }

/-- A refresh response body carrying tokens `a2`/`r2`. -/
def bRef2 : Body := { accessToken := some "a2", refreshToken := some "r2" }

/-- A server that 401s the original request, accepts the first
refresh, 401s the first replay, accepts the second refresh, and then
accepts the second replay. -/
def srvTwice401 : Srv := fun i =>
  if i == 0 then .http 401 {}
  else if i == 1 then .http 200 bRef1
  else if i == 2 then .http 401 {}
  else if i == 3 then .http 200 bRef2
  else .http 200 {}

/-- C3 counterexample: the claim asserts exactly one refresh attempt
and exactly one replay of the original request.  Against a server that
401s the first replay as well, `FrontendSimulator._make_request`
issues two refresh requests and replays the original request twice
(three sends in total). -/
theorem c3_counterexample :
    ((fs_make_request srvTwice401 fsCfg0 20 "GET" "/students" 0 fsStAuth).2.sent.map Sent.url =
      ["/students", "/auth/refresh", "/students", "/auth/refresh", "/students"]) ∧
    (((fs_make_request srvTwice401 fsCfg0 20 "GET" "/students" 0 fsStAuth).2.sent.filter
        (fun q => q.url == "/auth/refresh")).length = 2) ∧
    (fs_make_request srvTwice401 fsCfg0 20 "GET" "/students" 0 fsStAuth).1 = .ok ⟨200, {}⟩ := by
  decide

/-- C3 amended: if additionally the refresh request itself succeeds
(2xx, success body carrying a non-empty access token) and the replayed
request's response is not again a 401, then both the SDK client and
the simulator issue exactly one refresh request between the original
send and its single replay, and the replay carries the new access
token in its `Authorization` header, not the old one. -/
theorem c3_amended_single_refresh_then_retry (srv : Srv) (f : Nat)
    (b0 b1 b2 : Body) (s2 : Nat) (a r : String)
    (h0 : srv 0 = .http 401 b0) (h1 : srv 1 = .http 200 b1)
    (hb1s : b1.success = true) (hba : b1.accessToken = some a)
    (hbr : b1.refreshToken = some r) (ha : ¬a = "")
    (h2 : srv 2 = .http s2 b2) (hs2 : ¬s2 = 401) (m u : String) :
    sdk_make_request srv cfg0 (f+3) m u sdkSt0 =
      (finishResponse s2 b2,
       { token := some a, refresh_token := some r, ctr := 3,
         sent := [⟨m, u, some "Bearer t0"⟩,
                  ⟨"POST", "/auth/refresh", some "Bearer t0"⟩,
                  ⟨m, u, some ("Bearer " ++ a)⟩] }) ∧
    fs_make_request srv fsCfg0 (f+3) m u 0 fsStAuth =
      (.ok ⟨s2, b2⟩,
       { is_authenticated := true, access_token := some a, refresh_token := some r,
         hasUser := true, hasTenant := true, ctr := 3,
         sent := [⟨m, u, some "Bearer a0"⟩,
                  ⟨"POST", "/auth/refresh", some "Bearer a0"⟩,
                  ⟨m, u, some ("Bearer " ++ a)⟩] }) := by
  have haf : (a == "") = false := by simp [ha]
  have hs2f : (s2 == 401) = false := by simp [hs2]
  constructor
  · have hA : sdk_make_request srv cfg0 (f+1) "POST" "/auth/refresh"
        { token := some "t0", refresh_token := some "r0", ctr := 1,
          sent := [⟨m, u, some "Bearer t0"⟩] } =
        (.ok b1,
         { token := some "t0", refresh_token := some "r0", ctr := 2,
           sent := [⟨m, u, some "Bearer t0"⟩,
                    ⟨"POST", "/auth/refresh", some "Bearer t0"⟩] }) := by
      simp only [sdk_make_request]
      rw [h1]
      simp [get_auth_headers, cfg0, truthy, finishResponse]
    have hB : sdk_refresh_access_token srv cfg0 (f+2)
        { token := some "t0", refresh_token := some "r0", ctr := 1,
          sent := [⟨m, u, some "Bearer t0"⟩] } =
        (.ok b1,
         { token := some a, refresh_token := some r, ctr := 2,
           sent := [⟨m, u, some "Bearer t0"⟩,
                    ⟨"POST", "/auth/refresh", some "Bearer t0"⟩] }) := by
      simp only [sdk_refresh_access_token]
      rw [hA]
      simp [truthy, hba, hbr]
    simp only [sdkSt0, sdk_make_request]
    rw [h0]
    rw [(by decide : get_auth_headers cfg0 (some "t0") =
          [("Authorization", "Bearer t0"), ("X-Tenant-Slug", "springfield")])]
    norm_num [List.lookup, truthy]
    rw [hB]
    rw [if_neg (by decide : ¬("r0" : String) = "")]
    dsimp only
    rw [h2]
    simp [updateHeaders, get_auth_headers, cfg0, haf, List.lookup]
  · have hA : fs_make_request srv fsCfg0 (f+1) "POST" "/auth/refresh" 0
        { is_authenticated := true, access_token := some "a0", refresh_token := some "r0",
          hasUser := true, hasTenant := true, ctr := 1,
          sent := [⟨m, u, some "Bearer a0"⟩] } =
        (.ok ⟨200, b1⟩,
         { is_authenticated := true, access_token := some "a0", refresh_token := some "r0",
           hasUser := true, hasTenant := true, ctr := 2,
           sent := [⟨m, u, some "Bearer a0"⟩,
                    ⟨"POST", "/auth/refresh", some "Bearer a0"⟩] }) := by
      simp only [fs_make_request]
      rw [h1]
      simp [bearerOf, truthy]
    have hB : fs_refresh_token srv fsCfg0 (f+2)
        { is_authenticated := true, access_token := some "a0", refresh_token := some "r0",
          hasUser := true, hasTenant := true, ctr := 1,
          sent := [⟨m, u, some "Bearer a0"⟩] } =
        (.ok true,
         { is_authenticated := true, access_token := some a, refresh_token := some r,
           hasUser := true, hasTenant := true, ctr := 2,
           sent := [⟨m, u, some "Bearer a0"⟩,
                    ⟨"POST", "/auth/refresh", some "Bearer a0"⟩] }) := by
      simp only [fs_refresh_token]
      rw [hA]
      simp [truthy, hb1s, hba, hbr]
    simp only [fsStAuth, fs_make_request]
    rw [h0]
    rw [(by decide : bearerOf (some "a0") = some "Bearer a0")]
    rw [show fsCfg0.max_retries = 3 from rfl]
    norm_num [truthy]
    rw [hB]
    rw [if_neg (by decide : ¬("r0" : String) = "")]
    dsimp only
    rw [h2]
    simp [bearerOf, ha, haf, hs2]

/-- A server that 401s the original request, accepts the refresh with
tokens `a1`/`r1`, and accepts the replay. -/
def srvOnce401 : Srv := fun i =>
  if i == 0 then .http 401 {} else if i == 1 then .http 200 bRef1 else .http 200 {}

/-- Witness for the amended C3 at a concrete server: one refresh
between the original send and its single replay, with the replay
carrying the fresh access token. -/
theorem c3_amended_single_refresh_then_retry_witness :
    sdk_make_request srvOnce401 cfg0 (0+3) "GET" "/students" sdkSt0 =
      (finishResponse 200 {},
       { token := some "a1", refresh_token := some "r1", ctr := 3,
         sent := [⟨"GET", "/students", some "Bearer t0"⟩,
                  ⟨"POST", "/auth/refresh", some "Bearer t0"⟩,
                  ⟨"GET", "/students", some ("Bearer " ++ "a1")⟩] }) ∧
    fs_make_request srvOnce401 fsCfg0 (0+3) "GET" "/students" 0 fsStAuth =
      (.ok ⟨200, {}⟩,
       { is_authenticated := true, access_token := some "a1", refresh_token := some "r1",
         hasUser := true, hasTenant := true, ctr := 3,
         sent := [⟨"GET", "/students", some "Bearer a0"⟩,
                  ⟨"POST", "/auth/refresh", some "Bearer a0"⟩,
                  ⟨"GET", "/students", some ("Bearer " ++ "a1")⟩] }) :=
  c3_amended_single_refresh_then_retry srvOnce401 0 {} bRef1 {} 200 "a1" "r1"
    (by decide) (by decide) (by decide) (by decide) (by decide) (by decide)
    (by decide) (by decide) "GET" "/students"

/-! ## The authentication invariant (claim C7) -/

/-- The spec's session invariant for the simulator: whenever
`is_authenticated` is true, the access token is a non-empty string. -/
def InvFS (st : FSState) : Bool :=
  !st.is_authenticated || truthy st.access_token

/-- The spec's session invariant for the load-test virtual user. -/
def InvVU (st : VUState) : Bool :=
  !st.is_authenticated || truthy st.access_token

/-- Well-formedness of a server for the invariant: every HTTP response
body whose `success` flag is set carries a non-empty access token. -/
def WFTokens (srv : Srv) : Prop :=
  ∀ i s b, srv i = .http s b → b.success = true → truthy b.accessToken = true

/-- The access token fabricated by the load-test client is never the
empty string. -/
theorem fabTok_ne_empty (uid n : Nat) : ¬fabTok uid n = "" := by
  intro h
  have h2 := congrArg String.length h
  simp only [fabTok, String.length_append] at h2
  have h6 : "token_".length = 6 := rfl
  have h7 : "_".length = 1 := rfl
  have h8 : "".length = 0 := rfl
  omega

/-- Every response dict returned successfully by
`FrontendSimulator._make_request` is built from some server
response. -/
theorem fs_make_request_ok_src (srv : Srv) (cfg : FSConfig) (f : Nat) :
    ∀ m e rc st resp st',
      fs_make_request srv cfg f m e rc st = (.ok resp, st') →
      ∃ i, srv i = .http resp.status resp.data := by
  induction f with
  | zero => intro m e rc st resp st' h; simp [fs_make_request] at h
  | succ f ih =>
    intro m e rc st resp st' h
    simp only [fs_make_request] at h
    rcases hsrv : srv st.ctr with ⟨status, body⟩ | _ | _ <;> rw [hsrv] at h
    rotate_left
    · simp at h
    · simp at h
    dsimp only at h
    by_cases hcond : (status == 401 && truthy st.refresh_token &&
        decide (rc < cfg.max_retries)) = true
    · rw [if_pos hcond] at h
      rcases hrf : fs_refresh_token srv cfg f
          { st with ctr := st.ctr + 1,
                    sent := st.sent ++ [⟨m, e, bearerOf st.access_token⟩] } with ⟨o1, st2⟩
      rw [hrf] at h
      rcases o1 with _ | _ | _
      · dsimp only at h
        exact ih m e (rc + 1) st2 resp st' h
      · dsimp only at h
        rcases hau : fs_authenticate srv cfg f st2 with ⟨o2, st3⟩
        rw [hau] at h
        rcases o2 with _ | _ | _
        · dsimp only at h
          exact ih m e (rc + 1) st3 resp st' h
        · simp at h
        · simp at h
      · simp at h
    · rw [if_neg hcond] at h
      have hr : resp = ⟨status, body⟩ := by
        have := congrArg Prod.fst h
        simpa using this.symm
      exact ⟨st.ctr, by rw [hsrv, hr]⟩

/-- Invariant preservation for the simulator's request, authenticate
and refresh operations, by mutual induction on the recursion depth.
Needs the server to put a non-empty access token in every `success`
body, because `_authenticate` sets `is_authenticated` before it
extracts the token. -/
theorem fs_inv_preserved (srv : Srv) (cfg : FSConfig) (hwf : WFTokens srv) (f : Nat) :
    (∀ m e rc st, InvFS st = true → InvFS (fs_make_request srv cfg f m e rc st).2 = true) ∧
    (∀ st, InvFS st = true → InvFS (fs_authenticate srv cfg f st).2 = true) ∧
    (∀ st, InvFS st = true → InvFS (fs_refresh_token srv cfg f st).2 = true) := by
  induction f with
  | zero => exact ⟨fun _ _ _ _ h => h, fun _ h => h, fun _ h => h⟩
  | succ f ih =>
    obtain ⟨ihP, ihA, ihR⟩ := ih
    refine ⟨?_, ?_, ?_⟩
    · intro m e rc st hst
      simp only [fs_make_request]
      rcases hsrv : srv st.ctr with ⟨status, body⟩ | _ | _
      rotate_left
      · exact hst
      · exact hst
      dsimp only
      by_cases hcond : (status == 401 && truthy st.refresh_token &&
          decide (rc < cfg.max_retries)) = true
      · rw [if_pos hcond]
        rcases hrf : fs_refresh_token srv cfg f
            { st with ctr := st.ctr + 1,
                      sent := st.sent ++ [⟨m, e, bearerOf st.access_token⟩] } with ⟨o1, st2⟩
        have h2 : InvFS st2 = true := by
          have hpre := ihR
            { st with ctr := st.ctr + 1,
                      sent := st.sent ++ [⟨m, e, bearerOf st.access_token⟩] } hst
          rw [hrf] at hpre
          exact hpre
        rcases o1 with _ | _ | _
        · dsimp only
          exact ihP m e (rc + 1) st2 h2
        · dsimp only
          rcases hau : fs_authenticate srv cfg f st2 with ⟨o2, st3⟩
          have h3 : InvFS st3 = true := by
            have hpre := ihA st2 h2
            rw [hau] at hpre
            exact hpre
          rcases o2 with _ | _ | _
          · dsimp only
            exact ihP m e (rc + 1) st3 h3
          · exact h3
          · exact h3
        · exact h2
      · rw [if_neg hcond]
        exact hst
    · intro st hst
      simp only [fs_authenticate]
      rcases hmk : fs_make_request srv cfg f "POST" "/auth/login" 0 st with ⟨o, st1⟩
      have h1 : InvFS st1 = true := by
        have hpre := ihP "POST" "/auth/login" 0 st hst
        rw [hmk] at hpre
        exact hpre
      rcases o with resp | e | _
      · dsimp only
        by_cases hsucc : resp.data.success = true
        · rw [if_pos hsucc]
          obtain ⟨i, hsrv⟩ := fs_make_request_ok_src srv cfg f "POST" "/auth/login" 0 st resp st1 hmk
          have hta := hwf i resp.status resp.data hsrv hsucc
          rcases hacc : resp.data.accessToken with _ | a
          · rw [hacc] at hta
            simp [truthy] at hta
          · have htr : truthy (some a) = true := by rw [← hacc]; exact hta
            dsimp only
            rcases href : resp.data.refreshToken with _ | r
            · simp [InvFS, htr]
            · dsimp only
              by_cases hu : resp.data.hasUser = true
              · rw [if_pos hu]
                by_cases ht : resp.data.hasTenant = true
                · rw [if_pos ht]
                  simp [InvFS, htr]
                · rw [if_neg ht]
                  simp [InvFS, htr]
              · rw [if_neg hu]
                simp [InvFS, htr]
        · rw [if_neg hsucc]
          exact h1
      · exact h1
      · exact h1
    · intro st hst
      simp only [fs_refresh_token]
      by_cases hrt : (!truthy st.refresh_token) = true
      · rw [if_pos hrt]
        exact hst
      · rw [if_neg hrt]
        rcases hmk : fs_make_request srv cfg f "POST" "/auth/refresh" 0 st with ⟨o, st1⟩
        have h1 : InvFS st1 = true := by
          have hpre := ihP "POST" "/auth/refresh" 0 st hst
          rw [hmk] at hpre
          exact hpre
        rcases o with resp | e | _
        · dsimp only
          by_cases hsucc : resp.data.success = true
          · rw [if_pos hsucc]
            obtain ⟨i, hsrv⟩ :=
              fs_make_request_ok_src srv cfg f "POST" "/auth/refresh" 0 st resp st1 hmk
            have hta := hwf i resp.status resp.data hsrv hsucc
            rcases hacc : resp.data.accessToken with _ | a
            · rw [hacc] at hta
              simp [truthy] at hta
            · have htr : truthy (some a) = true := by rw [← hacc]; exact hta
              dsimp only
              rcases href : resp.data.refreshToken with _ | r
              · simp [InvFS, htr]
              · simp [InvFS, htr]
          · rw [if_neg hsucc]
            exact h1
        · exact h1
        · exact h1

/-- Invariant preservation for the simulator's logout (both its exit
paths set `is_authenticated` to false). -/
theorem fs_logout_inv (srv : Srv) (cfg : FSConfig) (hwf : WFTokens srv) (f : Nat)
    (st : FSState) (hst : InvFS st = true) : InvFS (fs_logout srv cfg f st).2 = true := by
  match f with
  | 0 => exact hst
  | f+1 =>
    simp only [fs_logout]
    rcases hmk : fs_make_request srv cfg f "POST" "/auth/logout" 0 st with ⟨o, st1⟩
    rcases o with resp | e | _
    · simp [InvFS]
    · simp [InvFS]
    · have hpre := (fs_inv_preserved srv cfg hwf f).1 "POST" "/auth/logout" 0 st hst
      rw [hmk] at hpre
      exact hpre

/-- Invariant preservation for the load-test client's operations: it
holds unconditionally because the fabricated tokens are never empty. -/
theorem vu_inv_preserved (srv : Srv) (uid : Nat) (f : Nat) :
    (∀ m e st, InvVU st = true → InvVU (vu_make_request srv uid f m e st).2 = true) ∧
    (∀ st, InvVU st = true → InvVU (vu_authenticate srv uid f st).2 = true) ∧
    (∀ st, InvVU st = true → InvVU (vu_refresh_token srv uid f st).2 = true) := by
  induction f with
  | zero => exact ⟨fun _ _ _ h => h, fun _ h => h, fun _ h => h⟩
  | succ f ih =>
    obtain ⟨ihP, ihA, ihR⟩ := ih
    refine ⟨?_, ?_, ?_⟩
    · intro m e st hst
      simp only [vu_make_request]
      rcases hsrv : srv st.ctr with ⟨status, body⟩ | _ | _
      rotate_left
      · exact hst
      · exact hst
      dsimp only
      by_cases hcond : (status == 401 && truthy st.refresh_token) = true
      · rw [if_pos hcond]
        rcases hrf : vu_refresh_token srv uid f
            { st with ctr := st.ctr + 1,
                      sent := st.sent ++ [⟨m, e, bearerOf st.access_token⟩] } with ⟨o1, st2⟩
        have h2 : InvVU st2 = true := by
          have hpre := ihR
            { st with ctr := st.ctr + 1,
                      sent := st.sent ++ [⟨m, e, bearerOf st.access_token⟩] } hst
          rw [hrf] at hpre
          exact hpre
        rcases o1 with _ | _ | _
        · dsimp only
          exact ihP m e st2 h2
        · dsimp only
          rcases hau : vu_authenticate srv uid f st2 with ⟨o2, st3⟩
          have h3 : InvVU st3 = true := by
            have hpre := ihA st2 h2
            rw [hau] at hpre
            exact hpre
          rcases o2 with _ | _ | _
          · dsimp only
            exact ihP m e st3 h3
          · exact h3
          · exact h3
        · exact h2
      · rw [if_neg hcond]
        by_cases hlt : status < 400
        · rw [if_pos hlt]
          exact hst
        · rw [if_neg hlt]
          exact hst
    · intro st hst
      simp only [vu_authenticate]
      rcases hmk : vu_make_request srv uid f "POST" "/auth/login" st with ⟨o, st1⟩
      have h1 : InvVU st1 = true := by
        have hpre := ihP "POST" "/auth/login" st hst
        rw [hmk] at hpre
        exact hpre
      rcases o with r | e | _
      · dsimp only
        by_cases hsucc : r.success = true
        · rw [if_pos hsucc]
          simp [InvVU, truthy, fabTok_ne_empty]
        · rw [if_neg hsucc]
          exact h1
      · exact h1
      · exact h1
    · intro st hst
      simp only [vu_refresh_token]
      rcases hmk : vu_make_request srv uid f "POST" "/auth/refresh" st with ⟨o, st1⟩
      have h1 : InvVU st1 = true := by
        have hpre := ihP "POST" "/auth/refresh" st hst
        rw [hmk] at hpre
        exact hpre
      rcases o with r | e | _
      · dsimp only
        by_cases hsucc : r.success = true
        · rw [if_pos hsucc]
          simp [InvVU, truthy, fabTok_ne_empty]
        · rw [if_neg hsucc]
          exact h1
      · exact h1
      · exact h1

/-- One caller-visible simulator operation, with the recursion budget
used to run it. -/
inductive FSOp where
  | request (m e : String) (f : Nat)
  | authOp (f : Nat)
  | refreshOp (f : Nat)
  | logoutOp (f : Nat)

/-- Apply one simulator operation to the session state (the outcome is
discarded: a caller that catches exceptions and continues reaches a
superset of the states a crashing caller reaches). -/
def fsApply (srv : Srv) (cfg : FSConfig) (st : FSState) : FSOp → FSState
  | .request m e f => (fs_make_request srv cfg f m e 0 st).2
  | .authOp f => (fs_authenticate srv cfg f st).2
  | .refreshOp f => (fs_refresh_token srv cfg f st).2
  | .logoutOp f => (fs_logout srv cfg f st).2

/-- Run a sequence of simulator operations from a state. -/
def fsRun (srv : Srv) (cfg : FSConfig) (ops : List FSOp) (st : FSState) : FSState :=
  ops.foldl (fsApply srv cfg) st

/-- One caller-visible load-test operation. -/
inductive VUOp where
  | request (m e : String) (f : Nat)
  | authOp (f : Nat)
  | refreshOp (f : Nat)
  | sessionOp (duration : Nat)

/-- Apply one load-test operation to the virtual-user state. -/
def vuApply (srv : Srv) (uid : Nat) (st : VUState) : VUOp → VUState
  | .request m e f => (vu_make_request srv uid f m e st).2
  | .authOp f => (vu_authenticate srv uid f st).2
  | .refreshOp f => (vu_refresh_token srv uid f st).2
  | .sessionOp d => (vu_simulate_user_session d st).2

/-- Run a sequence of load-test operations from a state. -/
def vuRun (srv : Srv) (uid : Nat) (ops : List VUOp) (st : VUState) : VUState :=
  ops.foldl (vuApply srv uid) st

/-- The load-test client's freshly-constructed user state. -/
def vuFresh : VUState :=
  { is_authenticated := false, access_token := none, refresh_token := none,
    ctr := 0, sent := [] }

/-- A server whose login response is a success carrying an *empty*
access token. -/
def srvEmptyTok : Srv := fun _ =>
  .http 200 { accessToken := some "", refreshToken := some "r1" }

/-- C7 counterexample: the claim asserts that in every reachable state,
`isAuthenticated` implies a non-empty access token.  The simulator does
not validate the token it extracts: a login response whose body carries
`accessToken = ""` leaves the session authenticated with an empty
access token. -/
theorem c7_counterexample :
    (fs_authenticate srvEmptyTok fsCfg0 5 fsSt0).1 = .ok true ∧
    (fs_authenticate srvEmptyTok fsCfg0 5 fsSt0).2.is_authenticated = true ∧
    (fs_authenticate srvEmptyTok fsCfg0 5 fsSt0).2.access_token = some "" := by
  decide

/-- C7 amended: provided every `success` response body carries a
non-empty access token, the invariant "isAuthenticated implies a
non-empty access token" holds in every state the simulator reaches by
any sequence of construction, requests, logins, refreshes and logouts;
for the load-test client it holds unconditionally, because that client
fabricates its (never-empty) tokens locally. -/
theorem c7_amended_auth_invariant (srv : Srv) (hwf : WFTokens srv)
    (ops : List FSOp) (uid : Nat) (ops' : List VUOp) :
    InvFS (fsRun srv fsCfg0 ops fsSt0) = true ∧
    InvVU (vuRun srv uid ops' vuFresh) = true := by
  constructor
  · have hgen : ∀ ops st, InvFS st = true → InvFS (fsRun srv fsCfg0 ops st) = true := by
      intro ops
      induction ops with
      | nil => exact fun st h => h
      | cons op rest ihops =>
        intro st h
        apply ihops
        rcases op with ⟨m, e, f⟩ | f | f | f
        · exact (fs_inv_preserved srv fsCfg0 hwf f).1 m e 0 st h
        · exact (fs_inv_preserved srv fsCfg0 hwf f).2.1 st h
        · exact (fs_inv_preserved srv fsCfg0 hwf f).2.2 st h
        · exact fs_logout_inv srv fsCfg0 hwf f st h
    exact hgen ops fsSt0 (by decide)
  · have hgen : ∀ ops st, InvVU st = true → InvVU (vuRun srv uid ops st) = true := by
      intro ops
      induction ops with
      | nil => exact fun st h => h
      | cons op rest ihops =>
        intro st h
        apply ihops
        rcases op with ⟨m, e, f⟩ | f | f | d
        · exact (vu_inv_preserved srv uid f).1 m e st h
        · exact (vu_inv_preserved srv uid f).2.1 st h
        · exact (vu_inv_preserved srv uid f).2.2 st h
        · exact h
    exact hgen ops' vuFresh (by decide)

/-- Witness for the amended C7: a concrete well-formed server and
concrete operation sequences. -/
theorem c7_amended_auth_invariant_witness :
    InvFS (fsRun srvGoodTok fsCfg0
      [.authOp 5, .request "GET" "/students" 5, .logoutOp 5] fsSt0) = true ∧
    InvVU (vuRun srvGoodTok 2 [.authOp 5, .refreshOp 5] vuFresh) = true :=
  c7_amended_auth_invariant srvGoodTok
    (by
      intro i s b h hb
      injection h with h1 h2
      rw [← h2]
      decide)
    [.authOp 5, .request "GET" "/students" 5, .logoutOp 5] 2 [.authOp 5, .refreshOp 5]

end SIS
